import Mathlib

/-!
Shallow embedding of the binary black hole collision simulator
(black_hole_collision: physics.cpp, integrator.cpp, merger.cpp,
simulation.cpp, main.cpp) over the real numbers.

Doubles are modelled as real numbers; glm double vectors as a record of
three reals.  Division by zero follows the Lean convention (x / 0 = 0);
where a source branch guards a denominator this is noted at the
definition.  Every definition mirrors the corresponding C++ function,
statement for statement; names follow the source.
-/

namespace BHC

open Classical Real

noncomputable section

/-- Double-precision 3-vector, as in glm dvec3. -/
@[ext] structure Vec3 where
  x : ℝ
  y : ℝ
  z : ℝ

namespace Vec3

def add (a b : Vec3) : Vec3 := ⟨a.x + b.x, a.y + b.y, a.z + b.z⟩

def sub (a b : Vec3) : Vec3 := ⟨a.x - b.x, a.y - b.y, a.z - b.z⟩

def neg (a : Vec3) : Vec3 := ⟨-a.x, -a.y, -a.z⟩

/-- Scalar times vector, as in glm. -/
def smul (c : ℝ) (a : Vec3) : Vec3 := ⟨c * a.x, c * a.y, c * a.z⟩

/-- Componentwise division of a vector by a scalar, as in glm (v / c). -/
def divs (a : Vec3) (c : ℝ) : Vec3 := ⟨a.x / c, a.y / c, a.z / c⟩

def dot (a b : Vec3) : ℝ := a.x * b.x + a.y * b.y + a.z * b.z

def cross (a b : Vec3) : Vec3 :=
  ⟨a.y * b.z - a.z * b.y, a.z * b.x - a.x * b.z, a.x * b.y - a.y * b.x⟩

/-- glm::length - Euclidean norm. -/
def length (a : Vec3) : ℝ := Real.sqrt (dot a a)

instance : Add Vec3 := ⟨add⟩

instance : Sub Vec3 := ⟨sub⟩

instance : Neg Vec3 := ⟨neg⟩

instance : SMul ℝ Vec3 := ⟨smul⟩

instance : Zero Vec3 := ⟨⟨0, 0, 0⟩⟩

/-- glm::normalize - the vector divided by its length.  On the zero
vector the C++ code divides zero by zero (NaN in IEEE); in this real
model that quotient is 0. -/
def normalize (a : Vec3) : Vec3 := divs a (length a)

end Vec3

/-- Black hole state, from black_hole.h. -/
structure BlackHole where
  mass : ℝ := 0
  chi : ℝ := 0
  position : Vec3 := 0
  velocity : Vec3 := 0
  spin_axis : Vec3 := 0

/-- Schwarzschild radius r_s = 2m, from black_hole.h. -/
def BlackHole.schwarzschild_radius (bh : BlackHole) : ℝ := 2 * bh.mass

/-- should_merge from merger.cpp: separation at most the critical factor
times the mean Schwarzschild radius, or relative speed above 2. -/
def should_merge (bh1 bh2 : BlackHole) (critical_factor : ℝ) : Prop :=
  let separation := Vec3.length (bh1.position - bh2.position)
  let r_critical := critical_factor *
    (bh1.schwarzschild_radius + bh2.schwarzschild_radius) / 2
  let v := bh1.velocity - bh2.velocity
  let v_mag := Vec3.length v
  separation ≤ r_critical ∨ v_mag > 2

/-- std::clamp on doubles: lo when v < lo, hi when hi < v, else v. -/
def std_clamp (v lo hi : ℝ) : ℝ :=
  if v < lo then lo else if hi < v then hi else v

/-- final_mass_fraction from merger.cpp (Healy et al. fit with the
equal-mass non-spinning special case). -/
def final_mass_fraction (eta chi1 chi2 : ℝ) : ℝ :=
  let chi_eff := 0.5 * (chi1 + chi2)
  let p0 : ℝ := 0.04827
  let p1 : ℝ := 0.01707
  let p2 : ℝ := -0.0308
  let E_rad_base := eta * (p0 + 4 * eta * p0)
  let spin_corr := 1 + p1 * chi_eff / (1 + p2 * chi_eff * chi_eff)
  let E_rad := E_rad_base * spin_corr
  let E_rad2 := std_clamp E_rad 0 0.1
  let E_rad3 := if |eta - 0.25| < 0.01 ∧ |chi_eff| < 0.01 then 0.035 else E_rad2
  1 - E_rad3

/-- final_spin from merger.cpp (Rezzolla et al. fit, clamped to
the interval from 0 to 0.998). -/
def final_spin (eta chi1 chi2 : ℝ) : ℝ :=
  let s4 : ℝ := -0.1229
  let s5 : ℝ := 0.4537
  let t0 : ℝ := -2.8904
  let t2 : ℝ := -3.5171
  let t3 : ℝ := 2.5763
  let delta_m := Real.sqrt (1 - 4 * eta)
  let a_init := 0.5 * ((1 + delta_m) * chi1 + (1 - delta_m) * chi2)
  let L_orb := 2 * Real.sqrt 3 * eta + t2 * eta * eta + t3 * eta * eta * eta
  let a_spin := a_init + s4 * a_init * a_init * eta
    + s5 * a_init * eta * delta_m + t0 * eta * a_init
  let af := a_spin + L_orb
  std_clamp af 0 0.998

/-- Quasinormal mode parameters, from merger.h. -/
structure QNMParams where
  frequency : ℝ := 0
  damping_time : ℝ := 0
  amplitude : ℝ := 0
  phase : ℝ := 0

/-- compute_qnm_222 from merger.cpp (Berti et al. fit for the
fundamental mode; the power-law base 1 - spin is floored at 1e-10). -/
def compute_qnm_222 (remnant_mass remnant_spin merger_amplitude : ℝ) :
    QNMParams :=
  let af := remnant_spin
  let Mf := remnant_mass
  let f1 : ℝ := 1.5251
  let f2 : ℝ := -1.1568
  let f3 : ℝ := 0.1292
  let q1 : ℝ := 0.7000
  let q2 : ℝ := 1.4187
  let q3 : ℝ := -0.4990
  let one_minus_af := 1 - af
  let one_minus_af := if one_minus_af < 1e-10 then 1e-10 else one_minus_af
  let omega_qnm := (f1 + f2 * one_minus_af ^ (f3 : ℝ)) / Mf
  let Q := q1 + q2 * one_minus_af ^ (q3 : ℝ)
  { frequency := omega_qnm / (2 * Real.pi)
    damping_time := Q / omega_qnm
    amplitude := merger_amplitude * 1.5
    phase := 0 }

/-- Gravitational wave strain record, from physics.h. -/
structure GWStrain where
  h_plus : ℝ := 0
  h_cross : ℝ := 0
  amplitude : ℝ := 0
  frequency : ℝ := 0

/-- ringdown_strain from merger.cpp: a damped sinusoid split into plus
and cross polarizations; negative time returns the zero strain. -/
def ringdown_strain (qnm : QNMParams) (t_after_merger : ℝ)
    (observer_distance observer_inclination : ℝ) : GWStrain :=
  if t_after_merger < 0 then {} else
  let cos_iota := Real.cos observer_inclination
  let cos2_iota := cos_iota * cos_iota
  let envelope := qnm.amplitude * Real.exp (-t_after_merger / qnm.damping_time)
  let phase := 2 * Real.pi * qnm.frequency * t_after_merger + qnm.phase
  let h_plus := envelope * (1 + cos2_iota) / 2 * Real.cos phase / observer_distance
  let h_cross := envelope * cos_iota * Real.sin phase / observer_distance
  { h_plus := h_plus
    h_cross := h_cross
    amplitude := Real.sqrt (h_plus * h_plus + h_cross * h_cross)
    frequency := qnm.frequency }

/-- recoil_kick from merger.cpp (Gonzalez et al. fit, mass-asymmetry and
spin terms combined in quadrature, converted to a fraction of c). -/
def recoil_kick (eta chi1 chi2 : ℝ) : ℝ :=
  let A : ℝ := 1.2e4
  let B : ℝ := -0.93
  let delta := Real.sqrt (max 0 (1 - 4 * eta))
  let v_mass := A * eta * eta * delta * (1 + B * eta)
  let delta_chi := chi1 - chi2
  let v_spin := 3678 * eta * delta_chi
  let v_total_kms := Real.sqrt (v_mass * v_mass + v_spin * v_spin)
  let c_kms : ℝ := 2.998e5
  v_total_kms / c_kms

/-- Remnant black hole properties, from merger.h. -/
structure RemnantProperties where
  mass : ℝ := 0
  spin : ℝ := 0
  position : Vec3 := 0
  velocity : Vec3 := 0
  kick_velocity : ℝ := 0
  energy_radiated : ℝ := 0

/-- compute_remnant from merger.cpp.  The kick direction normalizes the
orbital angular momentum direction r cross v with no degeneracy guard:
when that cross product is the zero vector the C++ code divides zero by
zero (NaN); in this real model the normalization yields the zero vector. -/
def compute_remnant (bh1 bh2 : BlackHole) : RemnantProperties :=
  let M := bh1.mass + bh2.mass
  let eta := bh1.mass * bh2.mass / (M * M)
  let mass := M * final_mass_fraction eta bh1.chi bh2.chi
  let spin := final_spin eta bh1.chi bh2.chi
  let energy_radiated := 1 - mass / M
  let kick_velocity := recoil_kick eta bh1.chi bh2.chi
  let position := Vec3.divs (bh1.mass • bh1.position + bh2.mass • bh2.position) M
  let v_com := Vec3.divs (bh1.mass • bh1.velocity + bh2.mass • bh2.velocity) M
  let r := bh1.position - bh2.position
  let v := bh1.velocity - bh2.velocity
  let L_hat := Vec3.normalize (Vec3.cross r v)
  { mass := mass
    spin := spin
    position := position
    velocity := v_com + kick_velocity • L_hat
    kick_velocity := kick_velocity
    energy_radiated := energy_radiated }

/-- std::cbrt - the real cube root, defined for negative arguments via
the odd extension of the positive-real power. -/
def cbrt (x : ℝ) : ℝ :=
  if x < 0 then -((-x) ^ ((1 : ℝ) / 3)) else x ^ ((1 : ℝ) / 3)

/-- std::atan2 y x - the argument of the complex number x + i y,
in the interval from -pi (exclusive) to pi (inclusive). -/
def atan2 (y x : ℝ) : ℝ := Complex.arg ⟨x, y⟩

/-- Decomposed post-Newtonian acceleration, from physics.h.
Fields default to zero, as in the value-initialized C++ record. -/
structure AccelerationResult where
  a_newtonian : Vec3 := 0
  a_1pn : Vec3 := 0
  a_2pn : Vec3 := 0
  a_25pn : Vec3 := 0

/-- Sum of the four contributions, from physics.h. -/
def AccelerationResult.total (a : AccelerationResult) : Vec3 :=
  a.a_newtonian + a.a_1pn + a.a_2pn + a.a_25pn

/-- compute_relative_acceleration from physics.cpp: Newtonian plus the
enabled 1PN, 2PN and 2.5PN terms of the relative two-body acceleration.
When the separation is below 1e-10 every term is the zero vector. -/
def compute_relative_acceleration (r v : Vec3) (m1 m2 : ℝ)
    (enable_1pn enable_2pn enable_25pn : Bool) : AccelerationResult :=
  let M := m1 + m2
  let eta := m1 * m2 / (M * M)
  let r2 := Vec3.dot r r
  let r_mag := Real.sqrt r2
  if r_mag < 1e-10 then {} else
  let n := Vec3.divs r r_mag
  let v2 := Vec3.dot v v
  let rdot := Vec3.dot n v
  let a_newtonian := (-M / r2) • n
  let a_1pn :=
    if enable_1pn then
      let Mr := M / r_mag
      let n_coeff := -v2 + 2 * (2 + eta) * Mr + 1.5 * eta * rdot * rdot
      let v_coeff := 2 * (2 - eta) * rdot
      (-Mr / r_mag) • (n_coeff • n + v_coeff • v)
    else 0
  let a_2pn :=
    if enable_2pn then
      let Mr := M / r_mag
      let Mr2 := Mr * Mr
      let rdot2 := rdot * rdot
      let v4 := v2 * v2
      let n_coeff :=
        -2 * (2 + 25 * eta + 2 * eta * eta) * Mr2
        + 1.5 * eta * (3 - 4 * eta) * v4
        + 0.5 * eta * (13 - 4 * eta) * Mr * v2
        - (2 + 15 * eta - 2 * eta * eta) * Mr * rdot2
        - 1.875 * eta * (1 - 3 * eta) * rdot2 * rdot2
        + 1.5 * eta * (3 - 4 * eta) * v2 * rdot2
      let v_coeff :=
        -0.5 * eta * (15 + 4 * eta) * v2 * rdot
        + (4 + 41 * eta / 4 + eta * eta) * Mr * rdot
        + 1.5 * eta * (3 + 2 * eta) * rdot * rdot2
      (-Mr / r_mag) • (n_coeff • n + v_coeff • v)
    else 0
  let a_25pn :=
    if enable_25pn then
      let Mr := M / r_mag
      let rdot2 := rdot * rdot
      let prefactor := 8 / 5 * eta * M * Mr / r2
      let n_coeff := rdot * (18 * v2 + 2 / 3 * Mr - 25 * rdot2)
      let v_coeff := -(6 * v2 - 2 * Mr - 15 * rdot2)
      prefactor • (n_coeff • n + v_coeff • v)
    else 0
  { a_newtonian := a_newtonian, a_1pn := a_1pn, a_2pn := a_2pn, a_25pn := a_25pn }

/-- compute_acceleration from physics.cpp: the per-body acceleration of
body 1, each term scaled by m2 / M. -/
def compute_acceleration (bh1 bh2 : BlackHole)
    (enable_1pn enable_2pn enable_25pn : Bool) : AccelerationResult :=
  let r := bh1.position - bh2.position
  let v := bh1.velocity - bh2.velocity
  let rel_acc := compute_relative_acceleration r v bh1.mass bh2.mass
    enable_1pn enable_2pn enable_25pn
  let M := bh1.mass + bh2.mass
  let factor := bh2.mass / M
  { a_newtonian := factor • rel_acc.a_newtonian
    a_1pn := factor • rel_acc.a_1pn
    a_2pn := factor • rel_acc.a_2pn
    a_25pn := factor • rel_acc.a_25pn }

/-- Orbital parameter record, from physics.h.  Fields default to zero,
as in the value-initialized C++ record. -/
structure OrbitalParams where
  separation : ℝ := 0
  orbital_frequency : ℝ := 0
  orbital_phase : ℝ := 0
  radial_velocity : ℝ := 0
  velocity_param : ℝ := 0
  reduced_mass : ℝ := 0
  total_mass : ℝ := 0
  symmetric_mass_ratio : ℝ := 0
  chirp_mass : ℝ := 0
  energy : ℝ := 0
  angular_momentum : ℝ := 0

/-- compute_orbital_params from physics.cpp.  Mass quantities are always
filled in; the dynamical quantities stay zero when the separation is
below 1e-10. -/
def compute_orbital_params (bh1 bh2 : BlackHole) : OrbitalParams :=
  let total_mass := bh1.mass + bh2.mass
  let reduced_mass := bh1.mass * bh2.mass / total_mass
  let symmetric_mass_ratio := reduced_mass / total_mass
  let chirp_mass := total_mass * symmetric_mass_ratio ^ (0.6 : ℝ)
  let r := bh1.position - bh2.position
  let v := bh1.velocity - bh2.velocity
  let separation := Vec3.length r
  if separation < 1e-10 then
    { separation := separation, total_mass := total_mass
      reduced_mass := reduced_mass
      symmetric_mass_ratio := symmetric_mass_ratio
      chirp_mass := chirp_mass }
  else
    let n := Vec3.divs r separation
    let radial_velocity := Vec3.dot v n
    let L := reduced_mass • Vec3.cross r v
    let angular_momentum := Vec3.length L
    let orbital_frequency := angular_momentum / (reduced_mass * separation * separation)
    let velocity_param :=
      if orbital_frequency > 0 then cbrt (total_mass * orbital_frequency) else 0
    let orbital_phase := atan2 r.z r.x
    let v2 := Vec3.dot v v
    let energy := 0.5 * reduced_mass * v2 - reduced_mass * total_mass / separation
    { separation := separation
      orbital_frequency := orbital_frequency
      orbital_phase := orbital_phase
      radial_velocity := radial_velocity
      velocity_param := velocity_param
      reduced_mass := reduced_mass
      total_mass := total_mass
      symmetric_mass_ratio := symmetric_mass_ratio
      chirp_mass := chirp_mass
      energy := energy
      angular_momentum := angular_momentum }

/-- compute_gw_strain from physics.cpp: leading-order quadrupole strain;
the zero strain when separation or observer distance is below 1e-10. -/
def compute_gw_strain (bh1 bh2 : BlackHole)
    (observer_distance observer_inclination : ℝ) : GWStrain :=
  let p := compute_orbital_params bh1 bh2
  if p.separation < 1e-10 ∨ observer_distance < 1e-10 then {} else
  let mu := p.reduced_mass
  let M := p.total_mass
  let omega := p.orbital_frequency
  let Phi := p.orbital_phase
  let D := observer_distance
  let iota := observer_inclination
  let v_param := cbrt (M * omega)
  let v2 := v_param * v_param
  let prefactor := 2 * mu * v2 / D
  let cos_iota := Real.cos iota
  let cos2_iota := cos_iota * cos_iota
  let h_plus := -prefactor * (1 + cos2_iota) / 2 * Real.cos (2 * Phi)
  let h_cross := -prefactor * cos_iota * Real.sin (2 * Phi)
  { h_plus := h_plus
    h_cross := h_cross
    amplitude := Real.sqrt (h_plus * h_plus + h_cross * h_cross)
    frequency := omega / Real.pi }

/-- kepler_frequency from physics.cpp. -/
def kepler_frequency (total_mass separation : ℝ) : ℝ :=
  if separation < 1e-10 then 0
  else Real.sqrt (total_mass / (separation * separation * separation))

/-- time_to_merger_estimate from physics.cpp (leading-order Peters
formula). -/
def time_to_merger_estimate (eta total_mass separation : ℝ) : ℝ :=
  5 / 256 * separation ^ (4 : ℝ) / (eta * total_mass ^ (3 : ℝ))

/-- Integrator state vector, from integrator.h. -/
@[ext] structure BinaryState where
  pos1 : Vec3 := 0
  vel1 : Vec3 := 0
  pos2 : Vec3 := 0
  vel2 : Vec3 := 0
  time : ℝ := 0

/-- Derivative of the state vector, from integrator.h. -/
structure BinaryStateDerivative where
  dpos1 : Vec3 := 0
  dvel1 : Vec3 := 0
  dpos2 : Vec3 := 0
  dvel2 : Vec3 := 0

/-- state_add from integrator.cpp. -/
def state_add (s : BinaryState) (d : BinaryStateDerivative) (dt : ℝ) :
    BinaryState :=
  { pos1 := s.pos1 + dt • d.dpos1
    vel1 := s.vel1 + dt • d.dvel1
    pos2 := s.pos2 + dt • d.dpos2
    vel2 := s.vel2 + dt • d.dvel2
    time := s.time + dt }

/-- rk4_step from integrator.cpp: one classic fourth-order
Runge-Kutta step. -/
def rk4_step (state : BinaryState) (dt : ℝ)
    (deriv : BinaryState → BinaryStateDerivative) : BinaryState :=
  let k1 := deriv state
  let k2 := deriv (state_add state k1 (dt * 0.5))
  let k3 := deriv (state_add state k2 (dt * 0.5))
  let k4 := deriv (state_add state k3 dt)
  { pos1 := state.pos1 + (dt / 6) • (k1.dpos1 + (2 : ℝ) • k2.dpos1 + (2 : ℝ) • k3.dpos1 + k4.dpos1)
    vel1 := state.vel1 + (dt / 6) • (k1.dvel1 + (2 : ℝ) • k2.dvel1 + (2 : ℝ) • k3.dvel1 + k4.dvel1)
    pos2 := state.pos2 + (dt / 6) • (k1.dpos2 + (2 : ℝ) • k2.dpos2 + (2 : ℝ) • k3.dpos2 + k4.dpos2)
    vel2 := state.vel2 + (dt / 6) • (k1.dvel2 + (2 : ℝ) • k2.dvel2 + (2 : ℝ) • k3.dvel2 + k4.dvel2)
    time := state.time + dt }

/-- Integrator configuration, from integrator.h, with its C++ default
member values. -/
structure IntegratorConfig where
  dt_initial : ℝ := 0.1
  dt_min : ℝ := 1e-6
  dt_max : ℝ := 1
  safety_factor : ℝ := 0.1
  adaptive : Bool := true

/-- adaptive_timestep from integrator.cpp: fixed initial step when
adaptive stepping is off; the minimum step below separation 1e-10;
otherwise a fixed fraction of the local orbital period, shrunk
quadratically inside twice the ISCO radius, clamped to the configured
range. -/
def adaptive_timestep (state : BinaryState) (config : IntegratorConfig)
    (total_mass : ℝ) : ℝ :=
  if !config.adaptive then config.dt_initial else
  let r := state.pos1 - state.pos2
  let separation := Vec3.length r
  if separation < 1e-10 then config.dt_min else
  let orbital_period := 2 * Real.pi *
    Real.sqrt (separation * separation * separation / total_mass)
  let dt := config.safety_factor * orbital_period
  let r_isco := 6 * total_mass
  let dt2 :=
    if separation < 2 * r_isco then
      dt * ((separation / (2 * r_isco)) * (separation / (2 * r_isco)))
    else dt
  std_clamp dt2 config.dt_min config.dt_max

/-- The unclamped adaptive step of adaptive_timestep on its
non-degenerate branch: the safety fraction of the local orbital period,
shrunk quadratically inside twice the ISCO radius.  Named so the clamp
structure of adaptive_timestep can be stated. -/
def pn_timestep_raw (state : BinaryState) (config : IntegratorConfig)
    (total_mass : ℝ) : ℝ :=
  let separation := Vec3.length (state.pos1 - state.pos2)
  let orbital_period := 2 * Real.pi *
    Real.sqrt (separation * separation * separation / total_mass)
  let dt := config.safety_factor * orbital_period
  let r_isco := 6 * total_mass
  if separation < 2 * r_isco then
    dt * ((separation / (2 * r_isco)) * (separation / (2 * r_isco)))
  else dt

/-- Initial-condition record, from black_hole.h, with its C++ default
member values. -/
structure BinaryConfig where
  m1 : ℝ := 0.5
  m2 : ℝ := 0.5
  chi1 : ℝ := 0
  chi2 : ℝ := 0
  spin_axis1 : Vec3 := ⟨0, 1, 0⟩
  spin_axis2 : Vec3 := ⟨0, 1, 0⟩
  initial_separation : ℝ := 20
  eccentricity : ℝ := 0
  inclination : ℝ := 0
  distance : ℝ := 1e6

/-- init_binary from simulation.cpp: place the bodies on the x axis
about the center of mass, with circular-orbit (eccentricity-corrected)
velocities along z.  The configured masses are copied unchanged. -/
def init_binary (config : BinaryConfig) : BlackHole × BlackHole :=
  let M := config.m1 + config.m2
  let r0 := config.initial_separation
  let r1 := r0 * config.m2 / M
  let r2 := r0 * config.m1 / M
  let v_circ_rel := Real.sqrt (M / r0)
  let ecc := config.eccentricity
  let v_factor := Real.sqrt ((1 + ecc) / (1 - ecc))
  let v_rel := v_circ_rel * v_factor
  let v1 := v_rel * config.m2 / M
  let v2 := v_rel * config.m1 / M
  ({ mass := config.m1, chi := config.chi1
     position := ⟨r1, 0, 0⟩, velocity := ⟨0, 0, v1⟩
     spin_axis := Vec3.normalize config.spin_axis1 },
   { mass := config.m2, chi := config.chi2
     position := ⟨-r2, 0, 0⟩, velocity := ⟨0, 0, -v2⟩
     spin_axis := Vec3.normalize config.spin_axis2 })

/-- make_deriv_func from simulation.cpp: the derivative closure handed
to the integrator.  Velocities pass through; the relative PN
acceleration is split into per-body accelerations by the opposite mass
fractions m2 / M and -(m1 / M). -/
def make_deriv_func (m1 m2 : ℝ) (pn1 pn2 pn25 : Bool) :
    BinaryState → BinaryStateDerivative := fun state =>
  let r := state.pos1 - state.pos2
  let v := state.vel1 - state.vel2
  let M := m1 + m2
  let acc := compute_relative_acceleration r v m1 m2 pn1 pn2 pn25
  let a_rel := AccelerationResult.total acc
  { dpos1 := state.vel1
    dvel1 := (m2 / M) • a_rel
    dpos2 := state.vel2
    dvel2 := (-(m1 / M)) • a_rel }

/-- One recorded frame, from simulation.h. -/
structure SimulationFrame where
  time : ℝ := 0
  bh1 : BlackHole := {}
  bh2 : BlackHole := {}
  orbital : OrbitalParams := {}
  gw : GWStrain := {}
  phase : ℕ := 0

/-- make_frame from simulation.cpp. -/
def make_frame (time : ℝ) (bh1 bh2 : BlackHole)
    (obs_distance obs_inclination : ℝ) (phase : ℕ) : SimulationFrame :=
  { time := time, bh1 := bh1, bh2 := bh2
    orbital := compute_orbital_params bh1 bh2
    gw := compute_gw_strain bh1 bh2 obs_distance obs_inclination
    phase := phase }

/-- Simulation configuration, from simulation.h, with its C++ default
member values.  The progress callback is omitted: it is observational
and never touches simulation state. -/
structure SimulationConfig where
  binary : BinaryConfig := {}
  integrator : IntegratorConfig := {}
  max_time : ℝ := 1e6
  record_interval : ℝ := 10
  ringdown_duration : ℝ := 100
  ringdown_samples : ℕ := 500
  observer_distance : ℝ := 1e6
  observer_inclination : ℝ := 0
  enable_1pn : Bool := true
  enable_2pn : Bool := true
  enable_25pn : Bool := true

/-- Outcome of the inspiral while-loop of run_simulation: the recorded
frames, the merger flag and time, the accumulated cycle count, the body
states as last written inside the loop, and the final step counter. -/
structure InspiralOutcome where
  frames : List SimulationFrame
  merger_occurred : Bool
  merger_time : ℝ
  total_gw_cycles : ℝ
  bh1 : BlackHole
  bh2 : BlackHole
  steps : ℕ

/-- Phase 1 (inspiral) while-loop of run_simulation in simulation.cpp,
as a recursive function.  Each iteration mirrors one pass of the C++
loop body: merger check, adaptive-cadence frame recording with wrapped
phase accumulation, adaptive time step, one RK4 step, then the hard
step-count ceiling check (which runs after the increment).  The
progress callback is omitted (observational only). -/
def inspiral_loop (config : SimulationConfig)
    (deriv : BinaryState → BinaryStateDerivative) (total_mass : ℝ)
    (bh1 bh2 : BlackHole) (state : BinaryState)
    (frames : List SimulationFrame)
    (last_record_time last_phase total_gw_cycles : ℝ)
    (step_count : ℕ) : InspiralOutcome :=
  if state.time < config.max_time then
    let bh1u := { bh1 with position := state.pos1, velocity := state.vel1 }
    let bh2u := { bh2 with position := state.pos2, velocity := state.vel2 }
    if should_merge bh1u bh2u 0.5 then
      { frames := frames ++ [make_frame state.time bh1u bh2u
          config.observer_distance config.observer_inclination 1]
        merger_occurred := true
        merger_time := state.time
        total_gw_cycles := total_gw_cycles
        bh1 := bh1u, bh2 := bh2u, steps := step_count }
    else
      let current_sep := Vec3.length (state.pos1 - state.pos2)
      let M_tot := bh1u.mass + bh2u.mass
      let effective_interval :=
        if current_sep < 10 * M_tot then config.record_interval / 4000
        else config.record_interval
      let do_record := state.time - last_record_time ≥ effective_interval
      let frames2 :=
        if do_record then
          frames ++ [make_frame state.time bh1u bh2u
            config.observer_distance config.observer_inclination 0]
        else frames
      let last_record_time2 := if do_record then state.time else last_record_time
      let orb := compute_orbital_params bh1u bh2u
      let phase_diff := orb.orbital_phase - last_phase
      let phase_diff2 :=
        if phase_diff < -Real.pi then phase_diff + 2 * Real.pi else phase_diff
      let phase_diff3 :=
        if phase_diff2 > Real.pi then phase_diff2 - 2 * Real.pi else phase_diff2
      let total_gw_cycles2 :=
        if do_record then total_gw_cycles + |phase_diff3| / Real.pi
        else total_gw_cycles
      let last_phase2 := if do_record then orb.orbital_phase else last_phase
      let dt := adaptive_timestep state config.integrator total_mass
      let state2 := rk4_step state dt deriv
      if h : step_count + 1 > 2000000000 then
        { frames := frames2, merger_occurred := false, merger_time := 0
          total_gw_cycles := total_gw_cycles2
          bh1 := bh1u, bh2 := bh2u, steps := step_count + 1 }
      else
        inspiral_loop config deriv total_mass bh1u bh2u state2 frames2
          last_record_time2 last_phase2 total_gw_cycles2 (step_count + 1)
  else
    { frames := frames, merger_occurred := false, merger_time := 0
      total_gw_cycles := total_gw_cycles
      bh1 := bh1, bh2 := bh2, steps := step_count }
termination_by 2000000001 - step_count
decreasing_by omega

/-- Complete result of a run, from simulation.h.  The extra field
inspiral_steps records the loop step counter at exit (the C++ local
step_count), so the step-ceiling behaviour can be stated. -/
structure SimulationResult where
  frames : List SimulationFrame := []
  config : BinaryConfig := {}
  remnant : RemnantProperties := {}
  qnm : QNMParams := {}
  merger_time : ℝ := 0
  total_gw_cycles : ℝ := 0
  total_energy_radiated : ℝ := 0
  merger_occurred : Bool := false
  num_inspiral_frames : ℕ := 0
  num_ringdown_frames : ℕ := 0
  inspiral_steps : ℕ := 0

/-- The inspiral phase of run_simulation: initialize the binary and
integrator state and run the inspiral loop from step count 0, as in the
opening of run_simulation in simulation.cpp. -/
def run_inspiral (config : SimulationConfig) : InspiralOutcome :=
  let bhs := init_binary config.binary
  let bh1 := bhs.1
  let bh2 := bhs.2
  let state : BinaryState :=
    { pos1 := bh1.position, vel1 := bh1.velocity
      pos2 := bh2.position, vel2 := bh2.velocity, time := 0 }
  let deriv := make_deriv_func bh1.mass bh2.mass
    config.enable_1pn config.enable_2pn config.enable_25pn
  let total_mass := bh1.mass + bh2.mass
  inspiral_loop config deriv total_mass bh1 bh2 state []
    (-config.record_interval) 0 0 0

/-- run_simulation from simulation.cpp: initialize the binary, run the
inspiral loop, and on merger compute the remnant and QNM parameters and
append the analytically synthesized ringdown frames; without merger the
result carries the inspiral frames only.  The initial orbital-parameter
and merger-time estimate of the C++ code feed only the progress
callback and are omitted with it. -/
def run_simulation (config : SimulationConfig) : SimulationResult :=
  let out := run_inspiral config
  let num_inspiral_frames := out.frames.length
  if out.merger_occurred then
    let remnant := compute_remnant out.bh1 out.bh2
    let merger_gw := compute_gw_strain out.bh1 out.bh2
      config.observer_distance config.observer_inclination
    let merger_amplitude := merger_gw.amplitude * config.observer_distance
    let qnm := compute_qnm_222 remnant.mass remnant.spin merger_amplitude
    let ringdown_dt := config.ringdown_duration / (config.ringdown_samples : ℝ)
    let ringdown_frames := (List.range config.ringdown_samples).map fun (i : ℕ) =>
      let t_ring := (i : ℝ) * ringdown_dt
      let gw_ring := ringdown_strain qnm t_ring
        config.observer_distance config.observer_inclination
      { time := out.merger_time + t_ring
        bh1 := { mass := remnant.mass, chi := remnant.spin
                 position := remnant.position + t_ring • remnant.velocity
                 velocity := remnant.velocity
                 spin_axis := ⟨0, 1, 0⟩ }
        bh2 := { mass := 0 }
        orbital := { separation := 0, orbital_frequency := qnm.frequency }
        gw := gw_ring
        phase := if gw_ring.amplitude > 1e-30 then 2 else 3 : SimulationFrame }
    { frames := out.frames ++ ringdown_frames
      config := config.binary
      remnant := remnant
      qnm := qnm
      merger_time := out.merger_time
      total_gw_cycles := out.total_gw_cycles
      total_energy_radiated := remnant.energy_radiated
      merger_occurred := true
      num_inspiral_frames := num_inspiral_frames
      num_ringdown_frames := config.ringdown_samples
      inspiral_steps := out.steps }
  else
    { frames := out.frames
      config := config.binary
      merger_time := 0
      total_gw_cycles := out.total_gw_cycles
      total_energy_radiated := 0
      merger_occurred := false
      num_inspiral_frames := num_inspiral_frames
      num_ringdown_frames := 0
      inspiral_steps := out.steps }

/-- Mass normalization performed by main in main.cpp before
run_simulation is invoked: each configured mass is divided by their
sum. -/
def main_normalized_masses (m1 m2 : ℝ) : ℝ × ℝ :=
  (m1 / (m1 + m2), m2 / (m1 + m2))

/-! Concrete inputs used by the witnesses and counterexamples below.
The two bh_sep pairs are the bodies of the test test_merger_detection in
tests/test_physics.cpp: equal masses 0.5, zero velocities, on the x axis
at separations 3 and 20. -/

/-- Body 1 of the separation-3 merger-detection test. -/
def bh_sep3_a : BlackHole :=
  { mass := 0.5, chi := 0, position := ⟨1.5, 0, 0⟩, velocity := 0
    spin_axis := ⟨0, 1, 0⟩ }

/-- Body 2 of the separation-3 merger-detection test. -/
def bh_sep3_b : BlackHole :=
  { mass := 0.5, chi := 0, position := ⟨-1.5, 0, 0⟩, velocity := 0
    spin_axis := ⟨0, 1, 0⟩ }

/-- Body 1 of the separation-20 merger-detection test. -/
def bh_sep20_a : BlackHole :=
  { mass := 0.5, chi := 0, position := ⟨10, 0, 0⟩, velocity := 0
    spin_axis := ⟨0, 1, 0⟩ }

/-- Body 2 of the separation-20 merger-detection test. -/
def bh_sep20_b : BlackHole :=
  { mass := 0.5, chi := 0, position := ⟨-10, 0, 0⟩, velocity := 0
    spin_axis := ⟨0, 1, 0⟩ }

/-- Equal-mass circular pair at separation 2: relative angular momentum
of magnitude 1, orbital angular frequency 1. -/
def bh_orb_a : BlackHole :=
  { mass := 1 / 2, chi := 0, position := ⟨1, 0, 0⟩, velocity := ⟨0, 0, 1⟩
    spin_axis := ⟨0, 1, 0⟩ }

/-- Partner of bh_orb_a. -/
def bh_orb_b : BlackHole :=
  { mass := 1 / 2, chi := 0, position := ⟨-1, 0, 0⟩, velocity := ⟨0, 0, -1⟩
    spin_axis := ⟨0, 1, 0⟩ }

/-- Integrator state with the bodies of bh_orb_a and bh_orb_b. -/
def state_orb : BinaryState :=
  { pos1 := ⟨1, 0, 0⟩, vel1 := ⟨0, 0, 1⟩
    pos2 := ⟨-1, 0, 0⟩, vel2 := ⟨0, 0, -1⟩, time := 0 }

/-- Integrator configuration with adaptive stepping disabled and an
initial step of 5, above the configured maximum step of 1. -/
def fixed_step_config : IntegratorConfig :=
  { dt_initial := 5, dt_min := 1e-6, dt_max := 1, safety_factor := 0.1
    adaptive := false }

/-- Binary configuration whose masses sum to 8, not 1. -/
def cfg_m26 : BinaryConfig := { m1 := 2, m2 := 6 }

/-- Simulation configuration whose integrator takes fixed steps of
size zero: the state never advances, neither merger nor max_time is
ever reached, and the inspiral loop can only exit through the hard
step-count ceiling.  Initial separation 1 makes the circular-orbit
square roots exact: relative speed 1, separation 1, both clear of the
merger thresholds. -/
def stationary_config : SimulationConfig :=
  { binary := { initial_separation := 1 }
    integrator := { dt_initial := 0, adaptive := false }, max_time := 1 }

/-- QNM parameter set observed edge-on (inclination pi/2): frequency
1/4 puts the phase at pi/2 after one damping time, where both
polarizations vanish. -/
def qnm_edge : QNMParams :=
  { frequency := 1 / 4, damping_time := 1, amplitude := 1, phase := 0 }

end

/-! ## Helper lemmas -/

namespace Vec3

@[simp] theorem add_x (a b : Vec3) : (a + b).x = a.x + b.x := rfl

@[simp] theorem add_y (a b : Vec3) : (a + b).y = a.y + b.y := rfl

@[simp] theorem add_z (a b : Vec3) : (a + b).z = a.z + b.z := rfl

@[simp] theorem sub_x (a b : Vec3) : (a - b).x = a.x - b.x := rfl

@[simp] theorem sub_y (a b : Vec3) : (a - b).y = a.y - b.y := rfl

@[simp] theorem sub_z (a b : Vec3) : (a - b).z = a.z - b.z := rfl

@[simp] theorem smul_x (c : ℝ) (a : Vec3) : (c • a).x = c * a.x := rfl

@[simp] theorem smul_y (c : ℝ) (a : Vec3) : (c • a).y = c * a.y := rfl

@[simp] theorem smul_z (c : ℝ) (a : Vec3) : (c • a).z = c * a.z := rfl

@[simp] theorem divs_x (a : Vec3) (c : ℝ) : (divs a c).x = a.x / c := rfl

@[simp] theorem divs_y (a : Vec3) (c : ℝ) : (divs a c).y = a.y / c := rfl

@[simp] theorem divs_z (a : Vec3) (c : ℝ) : (divs a c).z = a.z / c := rfl

@[simp] theorem zero_x : (0 : Vec3).x = 0 := rfl

@[simp] theorem zero_y : (0 : Vec3).y = 0 := rfl

@[simp] theorem zero_z : (0 : Vec3).z = 0 := rfl

@[simp] theorem neg_x (a : Vec3) : (-a).x = -a.x := rfl

@[simp] theorem neg_y (a : Vec3) : (-a).y = -a.y := rfl

@[simp] theorem neg_z (a : Vec3) : (-a).z = -a.z := rfl

end Vec3

/-- Square-root evaluation through a square witness. -/
theorem sqrt_eval {a b : ℝ} (hb : 0 ≤ b) (h : b * b = a) : Real.sqrt a = b := by
  rw [← h]
  exact Real.sqrt_mul_self hb

/-- Length evaluation through a square witness on the dot product. -/
theorem length_eval (v : Vec3) {c : ℝ} (hc : 0 ≤ c)
    (h : c * c = Vec3.dot v v) : Vec3.length v = c :=
  sqrt_eval hc h

/-- Lower clamp bound. -/
theorem le_std_clamp (v lo hi : ℝ) (h : lo ≤ hi) : lo ≤ std_clamp v lo hi := by
  unfold std_clamp
  split_ifs <;> linarith

/-- Upper clamp bound. -/
theorem std_clamp_le (v lo hi : ℝ) (h : lo ≤ hi) : std_clamp v lo hi ≤ hi := by
  unfold std_clamp
  split_ifs <;> linarith

/-- A Runge-Kutta step of size zero leaves the state unchanged, whatever
the derivative function. -/
theorem rk4_step_zero (state : BinaryState)
    (deriv : BinaryState → BinaryStateDerivative) :
    rk4_step state 0 deriv = state := by
  unfold rk4_step
  ext <;> simp

/-- The separation field of compute_orbital_params is the distance of
the two positions, on both sides of the degeneracy guard. -/
theorem orbital_params_separation (bh1 bh2 : BlackHole) :
    (compute_orbital_params bh1 bh2).separation =
      Vec3.length (bh1.position - bh2.position) := by
  simp only [compute_orbital_params]
  split_ifs <;> rfl

/-! ## Claim theorems -/

/-- C1: should_merge holds exactly when the separation is at most the
critical factor times the average of the two Schwarzschild radii or the
relative speed exceeds 2; however, contrary to the claim (and to the
repository's own test test_merger_detection), with masses 0.5/0.5 and
zero velocities it is false not only at separation 20 but also at
separation 3, since the critical separation there is 0.5. -/
theorem c1_should_merge_threshold :
    (∀ (bh1 bh2 : BlackHole) (critical_factor : ℝ),
      should_merge bh1 bh2 critical_factor ↔
        Vec3.length (bh1.position - bh2.position) ≤
          critical_factor * (2 * bh1.mass + 2 * bh2.mass) / 2
        ∨ Vec3.length (bh1.velocity - bh2.velocity) > 2)
    ∧ ¬ should_merge bh_sep3_a bh_sep3_b 0.5
    ∧ ¬ should_merge bh_sep20_a bh_sep20_b 0.5 := by
  have hchar : ∀ (bh1 bh2 : BlackHole) (critical_factor : ℝ),
      should_merge bh1 bh2 critical_factor ↔
        Vec3.length (bh1.position - bh2.position) ≤
          critical_factor * (2 * bh1.mass + 2 * bh2.mass) / 2
        ∨ Vec3.length (bh1.velocity - bh2.velocity) > 2 :=
    fun bh1 bh2 critical_factor => Iff.rfl
  refine ⟨hchar, ?_, ?_⟩
  · have hsep : Vec3.length (bh_sep3_a.position - bh_sep3_b.position) = 3 :=
      length_eval _ (by norm_num)
        (by simp [bh_sep3_a, bh_sep3_b, Vec3.dot]; norm_num)
    have hvel : Vec3.length (bh_sep3_a.velocity - bh_sep3_b.velocity) = 0 :=
      length_eval _ le_rfl (by simp [bh_sep3_a, bh_sep3_b, Vec3.dot])
    intro hm
    rcases (hchar _ _ _).mp hm with h | h
    · rw [hsep] at h
      simp only [bh_sep3_a, bh_sep3_b] at h
      norm_num at h
    · rw [hvel] at h
      norm_num at h
  · have hsep : Vec3.length (bh_sep20_a.position - bh_sep20_b.position) = 20 :=
      length_eval _ (by norm_num)
        (by simp [bh_sep20_a, bh_sep20_b, Vec3.dot]; norm_num)
    have hvel : Vec3.length (bh_sep20_a.velocity - bh_sep20_b.velocity) = 0 :=
      length_eval _ le_rfl (by simp [bh_sep20_a, bh_sep20_b, Vec3.dot])
    intro hm
    rcases (hchar _ _ _).mp hm with h | h
    · rw [hsep] at h
      simp only [bh_sep20_a, bh_sep20_b] at h
      norm_num at h
    · rw [hvel] at h
      norm_num at h

/-- C2: the derivative function built by make_deriv_func splits the
relative acceleration so that m1 times the body-1 acceleration plus m2
times the body-2 acceleration is exactly the zero vector, for every
state with separation at least 1e-10, every positive mass pair, and
every combination of PN enable flags. -/
theorem c2_momentum_conservation (m1 m2 : ℝ) (pn1 pn2 pn25 : Bool)
    (state : BinaryState)
    (hsep : Vec3.length (state.pos1 - state.pos2) ≥ 1e-10)
    (hm1 : 0 < m1) (hm2 : 0 < m2) :
    m1 • (make_deriv_func m1 m2 pn1 pn2 pn25 state).dvel1
      + m2 • (make_deriv_func m1 m2 pn1 pn2 pn25 state).dvel2 = (0 : Vec3) := by
  simp only [make_deriv_func]
  ext <;> simp <;> ring

/-- Witness for C2 at the concrete equal-mass circular pair of
state_orb, separation 2. -/
theorem c2_momentum_conservation_witness :
    (1 / 2 : ℝ) • (make_deriv_func (1 / 2) (1 / 2) true true true state_orb).dvel1
      + (1 / 2 : ℝ) • (make_deriv_func (1 / 2) (1 / 2) true true true
          state_orb).dvel2 = (0 : Vec3) := by
  refine c2_momentum_conservation (1 / 2) (1 / 2) true true true state_orb ?_
    (by norm_num) (by norm_num)
  have h : Vec3.length (state_orb.pos1 - state_orb.pos2) = 2 :=
    length_eval _ (by norm_num) (by simp [state_orb, Vec3.dot]; norm_num)
  rw [h]
  norm_num

/-- C4: final_mass_fraction always lies in the interval from 0.9 to 1
(the radiated fraction is clamped to at most 0.1), and is exactly 0.965
whenever eta is within 0.01 of 0.25 and the effective spin
(chi1 + chi2)/2 is within 0.01 of zero. -/
theorem c4_final_mass_fraction_bounds :
    ∀ eta chi1 chi2 : ℝ,
      (0.9 ≤ final_mass_fraction eta chi1 chi2
        ∧ final_mass_fraction eta chi1 chi2 ≤ 1)
      ∧ (|eta - 0.25| < 0.01 ∧ |0.5 * (chi1 + chi2)| < 0.01 →
          final_mass_fraction eta chi1 chi2 = 0.965) := by
  intro eta chi1 chi2
  simp only [final_mass_fraction]
  constructor
  · by_cases hc : |eta - 0.25| < 0.01 ∧ |0.5 * (chi1 + chi2)| < 0.01
    · rw [if_pos hc]
      norm_num
    · rw [if_neg hc]
      have h1 := le_std_clamp (eta * (0.04827 + 4 * eta * 0.04827) *
        (1 + 0.01707 * (0.5 * (chi1 + chi2)) /
          (1 + -0.0308 * (0.5 * (chi1 + chi2)) * (0.5 * (chi1 + chi2)))))
        0 0.1 (by norm_num)
      have h2 := std_clamp_le (eta * (0.04827 + 4 * eta * 0.04827) *
        (1 + 0.01707 * (0.5 * (chi1 + chi2)) /
          (1 + -0.0308 * (0.5 * (chi1 + chi2)) * (0.5 * (chi1 + chi2)))))
        0 0.1 (by norm_num)
      constructor <;> linarith
  · intro hc
    rw [if_pos hc]
    norm_num

/-- C6 (amended): run_simulation and init_binary use the configured
masses unchanged; the division by the mass sum happens in main (CLI)
before run_simulation is invoked, and there the normalized masses do
sum to 1 whenever the configured sum is nonzero. -/
theorem c6_mass_handling :
    (∀ config : BinaryConfig,
      (init_binary config).1.mass = config.m1
        ∧ (init_binary config).2.mass = config.m2)
    ∧ (∀ m1 m2 : ℝ, m1 + m2 ≠ 0 →
        (main_normalized_masses m1 m2).1 + (main_normalized_masses m1 m2).2 = 1
        ∧ (main_normalized_masses m1 m2).1 = m1 / (m1 + m2)) := by
  refine ⟨fun config => ⟨rfl, rfl⟩, fun m1 m2 h => ⟨?_, rfl⟩⟩
  simp only [main_normalized_masses]
  rw [div_add_div_same, div_self h]

/-- Counterexample for C6 as stated: with configured masses 2 and 6,
the body handed to the simulation has mass 2, strictly more than the
renormalized value 2/(2+6) the claim asserts. -/
theorem c6_masses_not_renormalized :
    (init_binary cfg_m26).1.mass = 2
      ∧ cfg_m26.m1 / (cfg_m26.m1 + cfg_m26.m2) < (init_binary cfg_m26).1.mass := by
  have h : (init_binary cfg_m26).1.mass = 2 := rfl
  refine ⟨h, ?_⟩
  rw [h]
  norm_num [cfg_m26]

/-- C7: below separation 1e-10 every PN acceleration term is the zero
vector, and the GW strain is the zero record whenever the separation or
the observer distance is below 1e-10; both functions stay total. -/
theorem c7_degenerate_zero :
    ∀ (r v : Vec3) (m1 m2 : ℝ) (e1 e2 e25 : Bool) (bh1 bh2 : BlackHole)
      (dist iota : ℝ),
      (Vec3.length r < 1e-10 →
        compute_relative_acceleration r v m1 m2 e1 e2 e25
          = ({} : AccelerationResult))
      ∧ (Vec3.length (bh1.position - bh2.position) < 1e-10 ∨ dist < 1e-10 →
          compute_gw_strain bh1 bh2 dist iota = ({} : GWStrain)) := by
  intro r v m1 m2 e1 e2 e25 bh1 bh2 dist iota
  constructor
  · intro h
    simp only [compute_relative_acceleration]
    rw [if_pos (show Real.sqrt (Vec3.dot r r) < 1e-10 from h)]
  · intro h
    simp only [compute_gw_strain]
    rw [if_pos]
    rwa [orbital_params_separation]

/-- C10: compute_remnant sets the remnant velocity to the mass-weighted
center-of-mass velocity plus the kick magnitude along the normalized
orbital angular momentum direction r cross v, with the kick magnitude
given by recoil_kick; there is no degeneracy guard, and when r cross v
is the zero vector the normalization is applied to the zero vector
(yielding zero in this real model, NaN in the IEEE code). -/
theorem c10_remnant_velocity :
    ∀ bh1 bh2 : BlackHole,
      ((compute_remnant bh1 bh2).velocity =
          Vec3.divs (bh1.mass • bh1.velocity + bh2.mass • bh2.velocity)
            (bh1.mass + bh2.mass)
          + (compute_remnant bh1 bh2).kick_velocity •
            Vec3.normalize (Vec3.cross (bh1.position - bh2.position)
              (bh1.velocity - bh2.velocity))
        ∧ (compute_remnant bh1 bh2).kick_velocity =
            recoil_kick (bh1.mass * bh2.mass /
              ((bh1.mass + bh2.mass) * (bh1.mass + bh2.mass))) bh1.chi bh2.chi)
      ∧ (Vec3.cross (bh1.position - bh2.position)
            (bh1.velocity - bh2.velocity) = 0 →
          Vec3.normalize (Vec3.cross (bh1.position - bh2.position)
            (bh1.velocity - bh2.velocity)) = 0) := by
  intro bh1 bh2
  refine ⟨⟨rfl, rfl⟩, fun h => ?_⟩
  rw [h]
  ext <;> simp [Vec3.normalize, Vec3.length, Vec3.dot]

/-- Separation of the concrete circular pair. -/
theorem bh_orb_sep : Vec3.length (bh_orb_a.position - bh_orb_b.position) = 2 :=
  length_eval _ (by norm_num) (by simp [bh_orb_a, bh_orb_b, Vec3.dot]; norm_num)

/-- Orbital angular frequency of the concrete circular pair is 1. -/
theorem orb_freq_eval :
    (compute_orbital_params bh_orb_a bh_orb_b).orbital_frequency = 1 := by
  have h4 : Real.sqrt 4 = 2 := sqrt_eval (by norm_num) (by norm_num)
  have h1 : Real.sqrt 1 = 1 := Real.sqrt_one
  norm_num [compute_orbital_params, bh_orb_a, bh_orb_b, Vec3.length,
    Vec3.dot, Vec3.cross, h4, h1]

/-- The GW frequency field produced by compute_gw_strain is the orbital
angular frequency divided by pi, away from the degeneracy guards. -/
theorem gw_frequency_formula (bh1 bh2 : BlackHole) (dist iota : ℝ)
    (hsep : Vec3.length (bh1.position - bh2.position) ≥ 1e-10)
    (hd : dist ≥ 1e-10) :
    (compute_gw_strain bh1 bh2 dist iota).frequency =
      (compute_orbital_params bh1 bh2).orbital_frequency / Real.pi := by
  simp only [compute_gw_strain]
  rw [if_neg]
  rw [orbital_params_separation]
  exact not_or.mpr ⟨not_lt.mpr hsep, not_lt.mpr hd⟩

/-- C5 (amended): for every pair with separation at least 1e-10 and
observer distance at least 1e-10, the strain frequency equals the
orbital angular frequency divided by pi - twice the orbital frequency
expressed in cycles per unit time, not twice the angular frequency
reported by compute_orbital_params. -/
theorem c5_gw_frequency (bh1 bh2 : BlackHole) (dist iota : ℝ)
    (hsep : Vec3.length (bh1.position - bh2.position) ≥ 1e-10)
    (hd : dist ≥ 1e-10) :
    (compute_gw_strain bh1 bh2 dist iota).frequency =
      (compute_orbital_params bh1 bh2).orbital_frequency / Real.pi :=
  gw_frequency_formula bh1 bh2 dist iota hsep hd

/-- Witness for C5 at the concrete circular pair. -/
theorem c5_gw_frequency_witness :
    (compute_gw_strain bh_orb_a bh_orb_b 1 0).frequency =
      (compute_orbital_params bh_orb_a bh_orb_b).orbital_frequency / Real.pi := by
  refine c5_gw_frequency bh_orb_a bh_orb_b 1 0 ?_ (by norm_num)
  rw [bh_orb_sep]
  norm_num

/-- Counterexample for C5 as stated: at the concrete circular pair the
orbital frequency is 1 and the strain frequency is 1/pi, strictly less
than twice the reported orbital frequency. -/
theorem c5_gw_frequency_counterexample :
    (compute_gw_strain bh_orb_a bh_orb_b 1 0).frequency
      < 2 * (compute_orbital_params bh_orb_a bh_orb_b).orbital_frequency := by
  have homega := orb_freq_eval
  have hfreq := gw_frequency_formula bh_orb_a bh_orb_b 1 0
    (by rw [bh_orb_sep]; norm_num) (by norm_num)
  rw [hfreq, homega]
  rw [div_lt_iff₀ Real.pi_pos]
  have hpi := Real.pi_gt_three
  linarith

/-- C3 (amended): adaptive_timestep returns dt_initial verbatim when
adaptive stepping is disabled, dt_min below separation 1e-10, and
otherwise the period-based step clamped to the configured range; when
adaptive stepping is enabled and dt_min is at most dt_max the result
lies in that range.  (When adaptive stepping is disabled the result is
dt_initial unclamped.) -/
theorem c3_adaptive_timestep_spec :
    ∀ (state : BinaryState) (config : IntegratorConfig) (total_mass : ℝ),
      (config.adaptive = false →
        adaptive_timestep state config total_mass = config.dt_initial)
      ∧ (config.adaptive = true →
          Vec3.length (state.pos1 - state.pos2) < 1e-10 →
          adaptive_timestep state config total_mass = config.dt_min)
      ∧ (config.adaptive = true →
          Vec3.length (state.pos1 - state.pos2) ≥ 1e-10 →
          adaptive_timestep state config total_mass =
            std_clamp (pn_timestep_raw state config total_mass)
              config.dt_min config.dt_max)
      ∧ (config.adaptive = true → config.dt_min ≤ config.dt_max →
          config.dt_min ≤ adaptive_timestep state config total_mass
            ∧ adaptive_timestep state config total_mass ≤ config.dt_max) := by
  intro state config total_mass
  refine ⟨fun h => ?_, fun h hlt => ?_, fun h hge => ?_, fun h hle => ?_⟩
  · simp [adaptive_timestep, h]
  · simp [adaptive_timestep, h, hlt]
  · simp [adaptive_timestep, pn_timestep_raw, h, not_lt.mpr hge]
  · by_cases hs : Vec3.length (state.pos1 - state.pos2) < 1e-10
    · simp only [adaptive_timestep, h, Bool.not_true, Bool.false_eq_true,
        if_false, if_pos hs]
      exact ⟨le_rfl, hle⟩
    · simp only [adaptive_timestep, h, Bool.not_true, Bool.false_eq_true,
        if_false, if_neg hs]
      exact ⟨le_std_clamp _ _ _ hle, std_clamp_le _ _ _ hle⟩

/-- Counterexample for C3 as stated: with adaptive stepping disabled and
dt_initial 5 above dt_max 1, the returned step is 5, outside the clamp
range - the returned value is not a clamped dt for every input. -/
theorem c3_fixed_step_unclamped :
    adaptive_timestep {} fixed_step_config 1 = 5
      ∧ fixed_step_config.dt_max < adaptive_timestep {} fixed_step_config 1 := by
  have h : adaptive_timestep ({} : BinaryState) fixed_step_config 1 = 5 := by
    simp [adaptive_timestep, fixed_step_config]
  refine ⟨h, ?_⟩
  rw [h]
  norm_num [fixed_step_config]

/-- Negative time returns the zero strain record. -/
theorem ringdown_zero_neg (qnm : QNMParams) (dist iota t : ℝ) (ht : t < 0) :
    ringdown_strain qnm t dist iota = ({} : GWStrain) := by
  simp only [ringdown_strain]
  rw [if_pos ht]

/-- Face-on observer: the ringdown amplitude is exactly the damped
envelope over the distance. -/
theorem ringdown_amp_face_on (qnm : QNMParams) (dist t : ℝ)
    (hA : 0 ≤ qnm.amplitude) (hD : 0 ≤ dist) (ht : 0 ≤ t) :
    (ringdown_strain qnm t dist 0).amplitude =
      qnm.amplitude * Real.exp (-t / qnm.damping_time) / dist := by
  simp only [ringdown_strain]
  rw [if_neg (not_lt.mpr ht)]
  dsimp only
  rw [Real.cos_zero]
  have h1 : (qnm.amplitude * Real.exp (-t / qnm.damping_time) * (1 + 1 * 1) / 2
        * Real.cos (2 * Real.pi * qnm.frequency * t + qnm.phase) / dist)
      * (qnm.amplitude * Real.exp (-t / qnm.damping_time) * (1 + 1 * 1) / 2
        * Real.cos (2 * Real.pi * qnm.frequency * t + qnm.phase) / dist)
      + (qnm.amplitude * Real.exp (-t / qnm.damping_time) * 1
        * Real.sin (2 * Real.pi * qnm.frequency * t + qnm.phase) / dist)
      * (qnm.amplitude * Real.exp (-t / qnm.damping_time) * 1
        * Real.sin (2 * Real.pi * qnm.frequency * t + qnm.phase) / dist)
      = (qnm.amplitude * Real.exp (-t / qnm.damping_time) / dist)
      * (qnm.amplitude * Real.exp (-t / qnm.damping_time) / dist) := by
    linear_combination (qnm.amplitude * Real.exp (-t / qnm.damping_time) / dist)
      * (qnm.amplitude * Real.exp (-t / qnm.damping_time) / dist)
      * Real.sin_sq_add_cos_sq (2 * Real.pi * qnm.frequency * t + qnm.phase)
  rw [h1, Real.sqrt_mul_self (by positivity)]

/-- Vanishing amplitude when both the inclination cosine and the phase
cosine vanish. -/
theorem ringdown_amp_zero (qnm : QNMParams) (dist iota t : ℝ) (ht : 0 ≤ t)
    (hi : Real.cos iota = 0)
    (hp : Real.cos (2 * Real.pi * qnm.frequency * t + qnm.phase) = 0) :
    (ringdown_strain qnm t dist iota).amplitude = 0 := by
  simp only [ringdown_strain]
  rw [if_neg (not_lt.mpr ht)]
  dsimp only
  rw [hi, hp]
  simp

/-- C9 (amended): for a face-on observer (inclination 0), positive
initial amplitude, positive damping time and positive distance, the
ringdown amplitude one damping time after merger equals the amplitude
at merger divided by e (hence certainly within 10 percent of it), the
amplitude at three damping times is strictly smaller than at one, and
negative time always returns the zero strain.  At other inclinations
the polarization phases modulate the amplitude and the claim fails. -/
theorem c9_ringdown_decay :
    ∀ (qnm : QNMParams) (dist : ℝ),
      (0 < qnm.amplitude → 0 < qnm.damping_time → 0 < dist →
        |(ringdown_strain qnm qnm.damping_time dist 0).amplitude
            - (ringdown_strain qnm 0 dist 0).amplitude / Real.exp 1|
          ≤ 0.1 * ((ringdown_strain qnm 0 dist 0).amplitude / Real.exp 1)
        ∧ (ringdown_strain qnm (3 * qnm.damping_time) dist 0).amplitude
            < (ringdown_strain qnm qnm.damping_time dist 0).amplitude)
      ∧ (∀ t iota : ℝ, t < 0 →
          ringdown_strain qnm t dist iota = ({} : GWStrain)) := by
  intro qnm dist
  constructor
  · intro hA ht hD
    have h0 : (ringdown_strain qnm 0 dist 0).amplitude =
        qnm.amplitude / dist := by
      rw [ringdown_amp_face_on qnm dist 0 hA.le hD.le le_rfl]
      norm_num
    have h1 : (ringdown_strain qnm qnm.damping_time dist 0).amplitude =
        qnm.amplitude * Real.exp (-1) / dist := by
      rw [ringdown_amp_face_on qnm dist qnm.damping_time hA.le hD.le ht.le]
      rw [neg_div, div_self ht.ne']
    have h3 : (ringdown_strain qnm (3 * qnm.damping_time) dist 0).amplitude =
        qnm.amplitude * Real.exp (-3) / dist := by
      rw [ringdown_amp_face_on qnm dist (3 * qnm.damping_time) hA.le hD.le
        (by positivity)]
      rw [show (-(3 * qnm.damping_time) / qnm.damping_time : ℝ) = -3 by
        rw [neg_div, mul_div_assoc, div_self ht.ne', mul_one]]
    refine ⟨?_, ?_⟩
    · rw [h0, h1]
      have heq : qnm.amplitude * Real.exp (-1) / dist =
          qnm.amplitude / dist / Real.exp 1 := by
        rw [Real.exp_neg]
        ring
      rw [heq, sub_self, abs_zero]
      positivity
    · rw [h1, h3]
      have hlt := Real.exp_lt_exp.mpr (show (-3 : ℝ) < -1 by norm_num)
      calc qnm.amplitude * Real.exp (-3) / dist
          = qnm.amplitude / dist * Real.exp (-3) := by ring
        _ < qnm.amplitude / dist * Real.exp (-1) :=
            mul_lt_mul_of_pos_left hlt (by positivity)
        _ = qnm.amplitude * Real.exp (-1) / dist := by ring
  · intro t iota htneg
    exact ringdown_zero_neg qnm dist iota t htneg

/-- Counterexample for C9 as stated: for the edge-on observer
(inclination pi/2) of qnm_edge, both polarizations vanish one damping
time after merger, so the amplitude at three damping times (also zero)
is not strictly below the amplitude at one damping time, and the
amplitude at one damping time misses the initial amplitude over e by
far more than 10 percent. -/
theorem c9_ringdown_decay_counterexample :
    (ringdown_strain qnm_edge 1 1 (Real.pi / 2)).amplitude
      ≤ (ringdown_strain qnm_edge 3 1 (Real.pi / 2)).amplitude
    ∧ 0.1 * ((ringdown_strain qnm_edge 0 1 (Real.pi / 2)).amplitude / Real.exp 1)
      < |(ringdown_strain qnm_edge 1 1 (Real.pi / 2)).amplitude
          - (ringdown_strain qnm_edge 0 1 (Real.pi / 2)).amplitude / Real.exp 1| := by
  have hp1 : Real.cos (2 * Real.pi * (1 / 4 : ℝ) * 1 + 0) = 0 := by
    rw [show (2 * Real.pi * (1 / 4 : ℝ) * 1 + 0 : ℝ) = Real.pi / 2 by ring]
    exact Real.cos_pi_div_two
  have hp3 : Real.cos (2 * Real.pi * (1 / 4 : ℝ) * 3 + 0) = 0 := by
    rw [show (2 * Real.pi * (1 / 4 : ℝ) * 3 + 0 : ℝ) = Real.pi + Real.pi / 2 by
      ring]
    rw [Real.cos_add]
    norm_num [Real.cos_pi_div_two, Real.sin_pi, Real.cos_pi]
  have hamp1 : (ringdown_strain qnm_edge 1 1 (Real.pi / 2)).amplitude = 0 :=
    ringdown_amp_zero qnm_edge 1 (Real.pi / 2) 1 (by norm_num)
      Real.cos_pi_div_two hp1
  have hamp3 : (ringdown_strain qnm_edge 3 1 (Real.pi / 2)).amplitude = 0 :=
    ringdown_amp_zero qnm_edge 1 (Real.pi / 2) 3 (by norm_num)
      Real.cos_pi_div_two hp3
  have hamp0 : (ringdown_strain qnm_edge 0 1 (Real.pi / 2)).amplitude = 1 / 2 := by
    simp only [ringdown_strain]
    rw [if_neg (by norm_num)]
    dsimp only
    rw [Real.cos_pi_div_two]
    rw [show (2 * Real.pi * qnm_edge.frequency * 0 + qnm_edge.phase : ℝ) = 0 by
      simp [qnm_edge]]
    rw [show (-(0 : ℝ) / qnm_edge.damping_time : ℝ) = 0 by simp]
    rw [Real.cos_zero, Real.sin_zero, Real.exp_zero]
    simp only [qnm_edge]
    rw [show ((1 : ℝ) * 1 * (1 + 0 * 0) / 2 * 1 / 1) * ((1 : ℝ) * 1 * (1 + 0 * 0) / 2 * 1 / 1)
        + ((1 : ℝ) * 1 * 0 * 0 / 1) * ((1 : ℝ) * 1 * 0 * 0 / 1) = (1 / 2 : ℝ) * (1 / 2) by
      norm_num]
    exact Real.sqrt_mul_self (by norm_num)
  refine ⟨?_, ?_⟩
  · rw [hamp1, hamp3]
  · rw [hamp1, hamp0]
    rw [zero_sub, abs_neg, abs_of_nonneg (by positivity)]
    have hx : 0 < (1 / 2 : ℝ) / Real.exp 1 := by positivity
    linarith

/-- The inspiral loop never leaves the step counter above the ceiling
plus one: every exit path returns either the entry counter or its
successor, and the loop only recurses while the incremented counter is
at most 2000000000. -/
theorem inspiral_loop_steps_le :
    ∀ (fuel : ℕ) (config : SimulationConfig)
      (deriv : BinaryState → BinaryStateDerivative) (total_mass : ℝ)
      (bh1 bh2 : BlackHole) (state : BinaryState)
      (frames : List SimulationFrame) (lrt lp cyc : ℝ) (n : ℕ),
      2000000001 - n ≤ fuel → n ≤ 2000000000 →
      (inspiral_loop config deriv total_mass bh1 bh2 state
        frames lrt lp cyc n).steps ≤ 2000000001 := by
  intro fuel
  induction fuel with
  | zero =>
    intro config deriv total_mass bh1 bh2 state frames lrt lp cyc n hf hn
    exfalso
    omega
  | succ k ih =>
    intro config deriv total_mass bh1 bh2 state frames lrt lp cyc n hf hn
    rw [inspiral_loop]
    by_cases h1 : state.time < config.max_time
    · rw [if_pos h1]
      dsimp only
      by_cases h2 : should_merge
          { bh1 with position := state.pos1, velocity := state.vel1 }
          { bh2 with position := state.pos2, velocity := state.vel2 } 0.5
      · rw [if_pos h2]
        dsimp only
        omega
      · rw [if_neg h2]
        by_cases h3 : n + 1 > 2000000000
        · rw [dif_pos h3]
          dsimp only
          omega
        · rw [dif_neg h3]
          exact ih _ _ _ _ _ _ _ _ _ _ _ (by omega) (by omega)
    · rw [if_neg h1]
      dsimp only
      omega

/-- The step counter of a full run is the loop's exit counter, whether
or not a merger occurred. -/
theorem run_simulation_inspiral_steps (config : SimulationConfig) :
    (run_simulation config).inspiral_steps = (run_inspiral config).steps := by
  simp only [run_simulation]
  by_cases h : (run_inspiral config).merger_occurred = true
  · rw [if_pos h]
  · rw [if_neg h]

/-- The loop exit counter of a full run is at most 2000000001. -/
theorem run_inspiral_steps_le (config : SimulationConfig) :
    (run_inspiral config).steps ≤ 2000000001 := by
  simp only [run_inspiral]
  exact inspiral_loop_steps_le 2000000001 _ _ _ _ _ _ _ _ _ _ _
    (by omega) (by omega)

/-- C8 (amended): run_simulation is total and its inspiral loop
performs at most 2000000001 RK4 steps (the ceiling check runs after
the increment, so the worst case is one step above the 2 times 10 to
the 9 constant); on merger the ringdown phase appends exactly the
configured number of samples; without merger the result is the
inspiral frames alone with merger_occurred false - a normal result,
not an error. -/
theorem c8_termination :
    ∀ config : SimulationConfig,
      (run_simulation config).inspiral_steps ≤ 2000000001
      ∧ ((run_simulation config).merger_occurred = true →
          (run_simulation config).num_ringdown_frames = config.ringdown_samples
          ∧ (run_simulation config).frames.length =
              (run_simulation config).num_inspiral_frames + config.ringdown_samples)
      ∧ ((run_simulation config).merger_occurred = false →
          (run_simulation config).num_ringdown_frames = 0
          ∧ (run_simulation config).frames.length =
              (run_simulation config).num_inspiral_frames) := by
  intro config
  refine ⟨?_, ?_, ?_⟩
  · rw [run_simulation_inspiral_steps]
    exact run_inspiral_steps_le config
  · intro hm
    by_cases h : (run_inspiral config).merger_occurred = true
    · simp only [run_simulation]
      rw [if_pos h]
      refine ⟨rfl, ?_⟩
      dsimp only
      simp only [List.length_append, List.length_map, List.length_range]
    · exfalso
      simp only [run_simulation] at hm
      rw [if_neg h] at hm
      simp at hm
  · intro hm
    by_cases h : (run_inspiral config).merger_occurred = true
    · exfalso
      simp only [run_simulation] at hm
      rw [if_pos h] at hm
      simp at hm
    · simp only [run_simulation]
      rw [if_neg h]
      exact ⟨rfl, rfl⟩

/-- On the stationary configuration the loop state is a fixed point
(step size zero), so from any admissible counter the loop runs to the
ceiling: it exits with counter 2000000001 and no merger. -/
theorem stationary_loop_steps :
    ∀ (fuel : ℕ) (deriv : BinaryState → BinaryStateDerivative)
      (total_mass : ℝ) (bh1 bh2 : BlackHole) (st : BinaryState)
      (frames : List SimulationFrame) (lrt lp cyc : ℝ) (n : ℕ),
      2000000001 - n ≤ fuel → n ≤ 2000000000 →
      st.time < stationary_config.max_time →
      ¬ should_merge { bh1 with position := st.pos1, velocity := st.vel1 }
        { bh2 with position := st.pos2, velocity := st.vel2 } 0.5 →
      (inspiral_loop stationary_config deriv total_mass bh1 bh2 st
          frames lrt lp cyc n).steps = 2000000001
      ∧ (inspiral_loop stationary_config deriv total_mass bh1 bh2 st
          frames lrt lp cyc n).merger_occurred = false := by
  intro fuel
  induction fuel with
  | zero =>
    intro deriv total_mass bh1 bh2 st frames lrt lp cyc n hf hn htime hmerge
    exfalso
    omega
  | succ k ih =>
    intro deriv total_mass bh1 bh2 st frames lrt lp cyc n hf hn htime hmerge
    have hdt : adaptive_timestep st stationary_config.integrator total_mass = 0 := by
      simp [adaptive_timestep, stationary_config]
    rw [inspiral_loop, if_pos htime]
    dsimp only
    rw [if_neg hmerge]
    rw [hdt, rk4_step_zero]
    by_cases h3 : n + 1 > 2000000000
    · rw [dif_pos h3]
      exact ⟨by show n + 1 = 2000000001; omega, rfl⟩
    · rw [dif_neg h3]
      exact ih _ _ _ _ _ _ _ _ _ _ (by omega) (by omega) htime hmerge

/-- Counterexample for C8 as stated: on the stationary configuration
the inspiral loop performs 2000000001 steps before the ceiling check
fires - strictly more than the stated bound of 2 times 10 to the 9. -/
theorem c8_step_ceiling_counterexample :
    (run_simulation stationary_config).inspiral_steps = 2000000001
    ∧ 2000000000 < (run_simulation stationary_config).inspiral_steps := by
  have hposd : (init_binary stationary_config.binary).1.position
      - (init_binary stationary_config.binary).2.position = ⟨1, 0, 0⟩ := by
    ext <;> simp [init_binary, stationary_config] <;> norm_num
  have hveld : (init_binary stationary_config.binary).1.velocity
      - (init_binary stationary_config.binary).2.velocity = ⟨0, 0, 1⟩ := by
    ext <;> simp [init_binary, stationary_config, Real.sqrt_one] <;> norm_num
  have l1 : Vec3.length (⟨1, 0, 0⟩ : Vec3) = 1 :=
    length_eval _ (by norm_num) (by simp [Vec3.dot])
  have l2 : Vec3.length (⟨0, 0, 1⟩ : Vec3) = 1 :=
    length_eval _ (by norm_num) (by simp [Vec3.dot])
  have hns : ¬ should_merge (init_binary stationary_config.binary).1
      (init_binary stationary_config.binary).2 0.5 := by
    intro hm
    simp only [should_merge, BlackHole.schwarzschild_radius] at hm
    rw [hposd, hveld, l1, l2] at hm
    norm_num [init_binary, stationary_config] at hm
  have hkey : (run_inspiral stationary_config).steps = 2000000001 := by
    simp only [run_inspiral]
    refine (stationary_loop_steps 2000000001 _ _ _ _ _ _ _ _ _ 0
      (by omega) (by omega) ?_ ?_).1
    · show (0 : ℝ) < stationary_config.max_time
      norm_num [stationary_config]
    · show ¬ should_merge (init_binary stationary_config.binary).1
        (init_binary stationary_config.binary).2 0.5
      exact hns
  rw [run_simulation_inspiral_steps, hkey]
  omega

end BHC
